import Mathlib

/-!
Shallow embedding of the game-session lifecycle, anti-cheat validation and
price-tier pipeline of the wizzyverse-api repository.

The repository ships the unit tests of the core services
(`src/__tests__/score-service.test.ts`, `src/__tests__/game-session-service.test.ts`,
the anti-cheat suite and the route suites), but the implementation files
`src/lib/anti-cheat-service.ts`, `src/lib/score-service.ts` and
`src/lib/game-session-service.ts` are not present under `src/`.  The
definitions below are therefore modelled from the specification, with every
behaviour that the unit tests pin down (exact rejection strings, tier sample
points, result shapes on each mocked store outcome) taken from those tests.

Timestamps are epoch milliseconds as `Int` (JavaScript `Date.getTime()`).
A JavaScript number that may be `undefined`/`null`/`NaN`/non-numeric is
modelled as `Option Int`: `none` stands for every non-finite-number value.
Store calls that may reject are modelled by explicit outcome parameters, so
each orchestrator operation is a total Lean function of the store state and
the chosen outcomes.
-/

namespace Wizzyverse

/-- Validation verdict value stored in a session document:
the string enum `"VALID" | "INVALID"` of the TypeScript sources. -/
inductive ValidationResult where
  | VALID
  | INVALID
deriving DecidableEq

/-- Modelled from the spec: the `ScoreEntry` session document (spec section 3,
`src/types/score.ts` is absent from `src/`), one per wallet address.  Client
timestamp strings are modelled already parsed, as epoch milliseconds. -/
structure ScoreEntry where
  address : String
  score : Option Int
  gameStartTime : Int
  clientStartTime : Int
  lastUpdate : Int
  gameEndTime : Option Int
  clientEndTime : Option Int
  validationResult : Option ValidationResult
  rejectionReason : Option String
  ipAddress : Option String
  userAgent : Option String
deriving DecidableEq

/-- Absolute session duration cap, 30 minutes in milliseconds (spec section 4.2 check 4). -/
def MAX_SESSION_DURATION_MS : Int := 1800000

/-- Tolerated gap between client-reported and server-observed elapsed time,
35 seconds in milliseconds (spec section 4.2 check 5). -/
def NETWORK_DELAY_TOLERANCE_MS : Int := 35000

/-- Clock-skew tolerance for the future-timestamp check (spec section 4.2 check 3
says "allow a small clock-skew tolerance" without fixing the value; the anti-cheat
test only requires it to be below 60 seconds, so 5 seconds is used here). -/
def CLOCK_SKEW_TOLERANCE_MS : Int := 5000

/-- Common mobile/tablet user-agent tokens for the device-class heuristic
(spec section 4.2 check 6: "substring match against common mobile tokens"). -/
def MOBILE_TOKENS : List String := ["Mobile", "Android", "iPhone", "iPad", "iPod", "Tablet"]

/-- `headMatches n h` holds when the character list `n` is an initial segment of `h`. -/
def headMatches : List Char → List Char → Bool
  | [], _ => true
  | _ :: _, [] => false
  | a :: as, b :: bs => a == b && headMatches as bs

/-- `hasSubstring n h` holds when the character list `n` occurs contiguously in `h`. -/
def hasSubstring (needle : List Char) : List Char → Bool
  | [] => headMatches needle []
  | c :: rest => headMatches needle (c :: rest) || hasSubstring needle rest

/-- `containsToken h t` holds when `t` occurs as a substring of `h`
(the JavaScript `String.prototype.includes` test used by the device heuristic). -/
def containsToken (haystack token : String) : Bool :=
  hasSubstring token.data haystack.data

/-- Modelled from the spec: the mobile/tablet device heuristic of
`src/lib/anti-cheat-service.ts` (absent from `src/`) — substring match of the
stored user agent against common mobile tokens (spec section 4.2 check 6). -/
def isMobileUserAgent (userAgent : String) : Bool :=
  MOBILE_TOKENS.any (fun t => containsToken userAgent t)

/-- Modelled from the spec: lower end of the plausible-score envelope
(spec section 4.2 check 7, "a low multiplier near 0.1x the duration in seconds"). -/
def minScoreFor (durationMs : Int) : Int := durationMs / 1000 / 10

/-- Modelled from the spec: upper end of the plausible-score envelope
(spec section 4.2 check 7, "a high multiplier near 2x the duration in seconds"). -/
def maxScoreFor (durationMs : Int) : Int := 2 * (durationMs / 1000)

/-- The anti-cheat verdict: `isValid` plus, on rejection, a machine-readable reason. -/
structure Verdict where
  isValid : Bool
  rejectionReason : Option String
deriving DecidableEq

/-- Modelled from the spec: `AntiCheatService.validateGameSession` of
`src/lib/anti-cheat-service.ts` (absent from `src/`).  Checks run in the order
of spec section 4.2 with first failing check winning; every rejection string is
the exact literal pinned by the anti-cheat unit tests (`src/unnamed/part_009`).
`score` is `none` for every non-finite-number input; `now` is the clock reading
used by the future-timestamp check. -/
def validateGameSession (session : ScoreEntry) (clientEndTime serverEndTime : Int)
    (ipAddress userAgent : String) (score : Option Int) (now : Int) : Verdict :=
  match score with
  | none => ⟨false, some "invalid score value"⟩
  | some s =>
    if serverEndTime < session.gameStartTime then
      ⟨false, some "time data is not chronological"⟩
    else if now + CLOCK_SKEW_TOLERANCE_MS < clientEndTime ∨
        now + CLOCK_SKEW_TOLERANCE_MS < serverEndTime then
      ⟨false, some "missing time data"⟩
    else if MAX_SESSION_DURATION_MS < serverEndTime - session.gameStartTime then
      ⟨false, some "session duration is too long"⟩
    else if NETWORK_DELAY_TOLERANCE_MS <
        |(clientEndTime - session.clientStartTime) - (serverEndTime - session.gameStartTime)| then
      ⟨false, some "network delay don\u0027t match"⟩
    else if session.userAgent ≠ some userAgent then
      ⟨false, some "User Agent don\u0027t match"⟩
    else if session.ipAddress ≠ some ipAddress ∧
        ¬ isMobileUserAgent (session.userAgent.getD "") then
      ⟨false, some "suspicious IP address change on computer"⟩
    else if s < minScoreFor (serverEndTime - session.gameStartTime) then
      ⟨false, some "score too low"⟩
    else if maxScoreFor (serverEndTime - session.gameStartTime) < s then
      ⟨false, some "score too high"⟩
    else ⟨true, none⟩

/-- Modelled from the spec: `ScoreService.getPriceTier` of
`src/lib/score-service.ts` (absent from `src/`): bands evaluated high to low,
inclusive lower bounds, exactly the sample points of
`src/__tests__/score-service.test.ts` lines 30-55 (spec section 4.3). -/
def getPriceTier (score : Int) : Nat :=
  if 300 ≤ score then 0
  else if 100 ≤ score then 1
  else if 50 ≤ score then 2
  else 3

/-- Epoch milliseconds of 2024-01-01T10:00:00.000Z, the session start instant
used throughout the unit-test fixtures. -/
def T0 : Int := 1704103200000

/-- The desktop user agent of the unit-test fixtures. -/
def desktopUA : String := "Mozilla/5.0 (Windows NT 10.0; Win64; x64) AppleWebKit/537.36"

/-- The mobile user agent of the unit-test fixtures. -/
def mobileUA : String := "Mozilla/5.0 (iPhone; CPU iPhone OS 14_0 like Mac OS X) AppleWebKit/605.1.15"

/-- A freshly created session fixture: started at `t0` from `ip` / `ua`,
client and server clocks in agreement, no score and no verdict yet. -/
def mkSession (t0 : Int) (ip ua : String) : ScoreEntry :=
  { address := "0x1234567890123456789012345678901234567890"
    score := none
    gameStartTime := t0
    clientStartTime := t0
    lastUpdate := t0
    gameEndTime := none
    clientEndTime := none
    validationResult := none
    rejectionReason := none
    ipAddress := some ip
    userAgent := some ua }

/-- A value thrown by a JavaScript store call: either an `Error` carrying a
message, or a non-`Error` value (string, object, ...). -/
inductive ThrownValue where
  | errorMsg (msg : String)
  | nonError
deriving DecidableEq

/-- The message an outer `catch (e)` block reports for a thrown value:
`e.message` for an `Error`, the literal `"Unknown error"` otherwise
(pinned by `src/__tests__/score-service.test.ts` lines 781-809). -/
def thrownMessage : ThrownValue → String
  | .errorMsg msg => msg
  | .nonError => "Unknown error"

/-- Outcome of an awaited store mutation as observed by the orchestrator:
it resolves to a truthy value, resolves to a falsy value, or rejects. -/
inductive WriteOutcome where
  | ok
  | falsy
  | throws (e : ThrownValue)
deriving DecidableEq

/-- The store-call outcomes one `processGameEnd` run can encounter, the
branches exercised by the mocks of `src/__tests__/score-service.test.ts`:
the initial score-document lookup may reject, `getSession` may reject, and
each of the two mutations may resolve truthy, resolve falsy, or reject. -/
structure EndBehavior where
  getScoreThrows : Bool
  getSessionThrows : Option ThrownValue
  updateOutcome : WriteOutcome
  saveOutcome : WriteOutcome
deriving DecidableEq

/-- The behavior of a run in which every store call succeeds. -/
def allOk : EndBehavior :=
  { getScoreThrows := false, getSessionThrows := none
    updateOutcome := .ok, saveOutcome := .ok }

/-- The structured result both public score operations return
(`{success, validationResult, rejectionReason, priceTier}`). -/
structure GameEndResult where
  success : Bool
  validationResult : ValidationResult
  rejectionReason : Option String
  priceTier : Nat
deriving DecidableEq

/-- One orchestrator run: its returned result together with whether the
anti-cheat validator was invoked and how many store mutations were attempted. -/
structure OperationRun where
  result : GameEndResult
  validatorInvoked : Bool
  storeWrites : Nat
deriving DecidableEq

/-- An aborted pipeline run: `success=false`, verdict `INVALID`, lowest tier. -/
def failedRun (reason : String) (validatorInvoked : Bool) (storeWrites : Nat) : OperationRun :=
  ⟨⟨false, .INVALID, some reason, 3⟩, validatorInvoked, storeWrites⟩

/-- Modelled from the spec: `ScoreService.processGameEnd` of
`src/lib/score-service.ts` (absent from `src/`), spec section 4.4 reconciled
with `src/__tests__/score-service.test.ts` and the `POST /scores/end` route
suite (`src/unnamed/part_010`): the initial score lookup (whose failure yields
`"Failed to get score"`), then `getSession` (absent session yields
`"No game session found for this address"`), then the anti-cheat validator with
`serverEndTime = now`; an `INVALID` verdict returns `success=false` with the
reason of the verdict and tier 3 before any mutation (the tests observe that
same reason even when both mutation mocks would fail); on a `VALID`
verdict `updateSession` then `saveSessionWithValidation` run, a falsy result
yielding the pinned failure strings and a rejection being caught into
`thrownMessage`.  The looked-up score document itself has no observable effect
in the test surface (every test mocks it to `null`) and is not consumed here. -/
def processGameEnd (doc : Option ScoreEntry) (b : EndBehavior) (clientEndTime : Int)
    (ipAddress userAgent : String) (score : Option Int) (now : Int) : OperationRun :=
  if b.getScoreThrows then failedRun "Failed to get score" false 0
  else
    match b.getSessionThrows with
    | some e => failedRun (thrownMessage e) false 0
    | none =>
      match doc with
      | none => failedRun "No game session found for this address" false 0
      | some session =>
        let verdict := validateGameSession session clientEndTime now ipAddress userAgent score now
        if verdict.isValid then
          match b.updateOutcome with
          | .throws e => failedRun (thrownMessage e) true 1
          | .falsy => failedRun "Failed to update game session with score data" true 1
          | .ok =>
            match b.saveOutcome with
            | .throws e => failedRun (thrownMessage e) true 2
            | .falsy => failedRun "Failed to save validation result" true 2
            | .ok =>
              ⟨⟨true, .VALID, none,
                match score with
                | some s => getPriceTier s
                | none => 3⟩, true, 2⟩
        else ⟨⟨false, .INVALID, verdict.rejectionReason, 3⟩, true, 0⟩

/-- The store-call outcomes one `validateExistingScore` run can encounter:
the score-document lookup may reject, and the verdict write may reject. -/
structure RevalBehavior where
  getScoreThrows : Bool
  saveThrows : Option ThrownValue
deriving DecidableEq

/-- The re-validation behavior in which every store call succeeds. -/
def revalOk : RevalBehavior := { getScoreThrows := false, saveThrows := none }

/-- Modelled from the spec: `ScoreService.validateExistingScore` of
`src/lib/score-service.ts` (absent from `src/`), spec section 4.4 reconciled
with `src/__tests__/score-service.test.ts` lines 337-611: lookup failure yields
`"Failed to get score"`; a missing document or missing score field yields
`"No score found for this address"`; a document whose verdict is already set is
returned as-is with `priceTier = getPriceTier score` and no write (lines
355-375 and 414-433); otherwise the validator runs on the stored fields with
`gameEndTime`/`clientEndTime` defaulted to now and `ipAddress`/`userAgent`
defaulted to `"unknown"`, the verdict is persisted, and the tier is
`getPriceTier score` on `VALID` and 3 on `INVALID` (lines 435-525).  Returns
the run paired with the store state after it. -/
def validateExistingScore (doc : Option ScoreEntry) (b : RevalBehavior) (now : Int) :
    OperationRun × Option ScoreEntry :=
  if b.getScoreThrows then (failedRun "Failed to get score" false 0, doc)
  else
    match doc with
    | none => (failedRun "No score found for this address" false 0, none)
    | some entry =>
      match entry.score with
      | none => (failedRun "No score found for this address" false 0, some entry)
      | some s =>
        match entry.validationResult with
        | some vr =>
          (⟨⟨true, vr, entry.rejectionReason, getPriceTier s⟩, false, 0⟩, some entry)
        | none =>
          let endTime := entry.gameEndTime.getD now
          let clientEnd := entry.clientEndTime.getD endTime
          let verdict := validateGameSession entry clientEnd endTime
            (entry.ipAddress.getD "unknown") (entry.userAgent.getD "unknown") (some s) now
          let vr : ValidationResult := if verdict.isValid then .VALID else .INVALID
          match b.saveThrows with
          | some e => (failedRun (thrownMessage e) true 1, some entry)
          | none =>
            (⟨⟨true, vr, verdict.rejectionReason,
               if verdict.isValid then getPriceTier s else 3⟩, true, 1⟩,
             some { entry with validationResult := some vr,
                               rejectionReason := verdict.rejectionReason,
                               lastUpdate := now })

/-- Errors the session store surfaces (`GameSessionService` throws `Error`s
with these messages; modelled as a closed error type). -/
inductive SessionStoreError where
  | sessionExists (address : String)
  | updateFailed (address : String)
deriving DecidableEq

/-- The request context captured when a session starts. -/
structure RequestInfo where
  ipAddress : Option String
  userAgent : Option String
  clientTimestamp : Option Int
deriving DecidableEq

/-- Modelled from the spec: the fresh document `GameSessionService.createSession`
inserts (pinned field-by-field by `src/__tests__/game-session-service.test.ts`
lines 52-80: no score, no end times, no verdict, request-supplied client
timestamp and fingerprint). -/
def newSessionDoc (address : String) (req : Option RequestInfo) (now : Int) : ScoreEntry :=
  { address := address
    score := none
    gameStartTime := now
    clientStartTime := ((req.bind RequestInfo.clientTimestamp).getD 0)
    lastUpdate := now
    gameEndTime := none
    clientEndTime := none
    validationResult := none
    rejectionReason := none
    ipAddress := req.bind RequestInfo.ipAddress
    userAgent := req.bind RequestInfo.userAgent }

/-- Modelled from the spec: `GameSessionService.createSession` of
`src/lib/game-session-service.ts` (absent from `src/`), spec section 4.1 and
`src/__tests__/game-session-service.test.ts` lines 51-192: an existing document
with a score set is terminal and the call fails with the session-exists error;
an existing document without a score is overwritten in place by a
`findOneAndUpdate` that `$set`s the start fields and clears the end fields
(the address and score fields are not in the `$set` list); with no document a
fresh one is inserted.  Returns the reported start time and the store state. -/
def createSession (doc : Option ScoreEntry) (address : String) (req : Option RequestInfo)
    (now : Int) : Except SessionStoreError (Int × ScoreEntry) :=
  match doc with
  | some existing =>
    if existing.score.isSome then .error (.sessionExists address)
    else
      .ok (now,
        { existing with
            gameStartTime := now
            clientStartTime := ((req.bind RequestInfo.clientTimestamp).getD 0)
            lastUpdate := now
            gameEndTime := none
            clientEndTime := none
            validationResult := none
            rejectionReason := none
            ipAddress := req.bind RequestInfo.ipAddress
            userAgent := req.bind RequestInfo.userAgent })
  | none => .ok (now, newSessionDoc address req now)

/-- Modelled from the spec: `GameSessionService.updateSession` of
`src/lib/game-session-service.ts` (absent from `src/`), pinned by
`src/__tests__/game-session-service.test.ts` lines 221-302: one
`findOneAndUpdate` whose filter is `{address}` alone and whose `$set` writes
`score`, `gameEndTime`, `clientEndTime` and `lastUpdate`; a null result (no
document for the address) throws the update-failed error. -/
def updateSession (doc : Option ScoreEntry) (address : String) (score : Int)
    (gameEndTime : Int) (clientEndTime : Option Int) (now : Int) :
    Except SessionStoreError ScoreEntry :=
  match doc with
  | none => .error (.updateFailed address)
  | some session =>
    .ok { session with
            score := some score
            gameEndTime := some gameEndTime
            clientEndTime := clientEndTime
            lastUpdate := now }

/-- The verdict `validateExistingScore` computes on its fresh path: the stored
session fields with `gameEndTime`/`clientEndTime` defaulted to `now` and the
fingerprint defaulted to `"unknown"`. -/
def revalVerdict (entry : ScoreEntry) (s : Int) (now : Int) : Verdict :=
  validateGameSession entry (entry.clientEndTime.getD (entry.gameEndTime.getD now))
    (entry.gameEndTime.getD now) (entry.ipAddress.getD "unknown")
    (entry.userAgent.getD "unknown") (some s) now

/-- The behavior in which the initial score lookup of `processGameEnd` rejects. -/
def badLookup : EndBehavior :=
  { getScoreThrows := true, getSessionThrows := none
    updateOutcome := .ok, saveOutcome := .ok }

/-- The behavior in which the score lookup of `validateExistingScore` rejects. -/
def revalBadLookup : RevalBehavior := { getScoreThrows := true, saveThrows := none }

/-- The behavior in which `updateSession` rejects with a non-`Error` value
(the mock of `src/__tests__/score-service.test.ts` lines 781-809). -/
def updateThrowsNonError : EndBehavior :=
  { getScoreThrows := false, getSessionThrows := none
    updateOutcome := .throws .nonError, saveOutcome := .ok }

/-- A terminal session fixture: scored 300 at five minutes and marked `VALID`. -/
def terminalSessionFx : ScoreEntry :=
  { mkSession T0 "192.168.1.1" desktopUA with
      score := some 300
      gameEndTime := some (T0 + 300000)
      clientEndTime := some (T0 + 300000)
      validationResult := some .VALID }

/-- A stored score document fixture with score 150 already marked `INVALID`
(the fixture of `src/__tests__/score-service.test.ts` lines 414-433). -/
def storedInvalid150 : ScoreEntry :=
  { mkSession T0 "192.168.1.1" desktopUA with
      score := some 150
      gameEndTime := some (T0 + 300000)
      clientEndTime := some (T0 + 300000)
      validationResult := some .INVALID
      rejectionReason := some "Previous rejection reason" }

/-- A scored but not yet validated session fixture whose score (200 in 10
seconds) the envelope rejects as too high. -/
def unvalidated200 : ScoreEntry :=
  { mkSession T0 "192.168.1.1" desktopUA with
      score := some 200
      gameEndTime := some (T0 + 10000)
      clientEndTime := some (T0 + 10000) }

/-- A scored but not yet validated session fixture whose score (300 in 5
minutes) the validator accepts. -/
def unvalidated300 : ScoreEntry :=
  { mkSession T0 "192.168.1.1" desktopUA with
      score := some 300
      gameEndTime := some (T0 + 300000)
      clientEndTime := some (T0 + 300000) }

/-- On a session whose stored fingerprint matches the observed one and whose
client clock agrees with the server clock, the validator reduces to the
score-envelope comparison once the duration is within the cap. -/
theorem validate_envelope_only (st : ScoreEntry) (cEnd sEnd now : Int) (ip ua : String)
    (s : Int) (hclk : st.clientStartTime = st.gameStartTime) (hip : st.ipAddress = some ip)
    (hua : st.userAgent = some ua) (hchron : st.gameStartTime ≤ sEnd) (hce : cEnd = sEnd)
    (hfut : sEnd ≤ now + CLOCK_SKEW_TOLERANCE_MS)
    (hdur : sEnd - st.gameStartTime ≤ MAX_SESSION_DURATION_MS) :
    validateGameSession st cEnd sEnd ip ua (some s) now =
      if s < minScoreFor (sEnd - st.gameStartTime) then ⟨false, some "score too low"⟩
      else if maxScoreFor (sEnd - st.gameStartTime) < s then ⟨false, some "score too high"⟩
      else ⟨true, none⟩ := by
  subst hce
  simp only [validateGameSession]
  rw [hclk, hip, hua]
  rw [if_neg (show ¬ (cEnd < st.gameStartTime) by omega)]
  rw [if_neg (show ¬ (now + CLOCK_SKEW_TOLERANCE_MS < cEnd ∨
    now + CLOCK_SKEW_TOLERANCE_MS < cEnd) by omega)]
  rw [if_neg (show ¬ (MAX_SESSION_DURATION_MS < cEnd - st.gameStartTime) by omega)]
  rw [if_neg (show ¬ (NETWORK_DELAY_TOLERANCE_MS <
      |cEnd - st.gameStartTime - (cEnd - st.gameStartTime)| ) by
    rw [show cEnd - st.gameStartTime - (cEnd - st.gameStartTime) = 0 from by ring, abs_zero]
    norm_num [NETWORK_DELAY_TOLERANCE_MS])]
  rw [if_neg (show ¬ (some ua ≠ some ua) by simp)]
  rw [if_neg (show ¬ (some ip ≠ some ip ∧
    ¬ isMobileUserAgent ((some ua).getD "") = true) by simp)]

/-- C4: on a session that passes every earlier anti-cheat check (same IP and
user agent at start and end, client clock equal to the server clock), at five
minutes elapsed a score of 300 is accepted, a score of 10 is rejected as
"score too low", a score of 10000 is rejected as "score too high", and at ten
minutes elapsed a score of 600 is accepted — for every start instant and every
stored fingerprint. -/
theorem claim_C4 (t0 : Int) (ip ua : String) :
    validateGameSession (mkSession t0 ip ua) (t0 + 300000) (t0 + 300000)
      ip ua (some 300) (t0 + 300000) = ⟨true, none⟩ ∧
    validateGameSession (mkSession t0 ip ua) (t0 + 300000) (t0 + 300000)
      ip ua (some 10) (t0 + 300000) = ⟨false, some "score too low"⟩ ∧
    validateGameSession (mkSession t0 ip ua) (t0 + 300000) (t0 + 300000)
      ip ua (some 10000) (t0 + 300000) = ⟨false, some "score too high"⟩ ∧
    validateGameSession (mkSession t0 ip ua) (t0 + 600000) (t0 + 600000)
      ip ua (some 600) (t0 + 600000) = ⟨true, none⟩ := by
  have h5 : t0 + 300000 - (mkSession t0 ip ua).gameStartTime = 300000 := by
    show t0 + 300000 - t0 = (300000 : Int); ring
  have h10 : t0 + 600000 - (mkSession t0 ip ua).gameStartTime = 600000 := by
    show t0 + 600000 - t0 = (600000 : Int); ring
  have hc5 : (mkSession t0 ip ua).gameStartTime ≤ t0 + 300000 := by
    show t0 ≤ t0 + 300000; omega
  have hc10 : (mkSession t0 ip ua).gameStartTime ≤ t0 + 600000 := by
    show t0 ≤ t0 + 600000; omega
  have hf5 : t0 + 300000 ≤ t0 + 300000 + CLOCK_SKEW_TOLERANCE_MS := by
    show t0 + 300000 ≤ t0 + 300000 + 5000; omega
  have hf10 : t0 + 600000 ≤ t0 + 600000 + CLOCK_SKEW_TOLERANCE_MS := by
    show t0 + 600000 ≤ t0 + 600000 + 5000; omega
  have hd5 : t0 + 300000 - (mkSession t0 ip ua).gameStartTime ≤ MAX_SESSION_DURATION_MS := by
    show t0 + 300000 - t0 ≤ (1800000 : Int); omega
  have hd10 : t0 + 600000 - (mkSession t0 ip ua).gameStartTime ≤ MAX_SESSION_DURATION_MS := by
    show t0 + 600000 - t0 ≤ (1800000 : Int); omega
  refine ⟨?_, ?_, ?_, ?_⟩
  · rw [validate_envelope_only (mkSession t0 ip ua) (t0 + 300000) (t0 + 300000) (t0 + 300000)
      ip ua 300 rfl rfl rfl hc5 rfl hf5 hd5, h5]; decide
  · rw [validate_envelope_only (mkSession t0 ip ua) (t0 + 300000) (t0 + 300000) (t0 + 300000)
      ip ua 10 rfl rfl rfl hc5 rfl hf5 hd5, h5]; decide
  · rw [validate_envelope_only (mkSession t0 ip ua) (t0 + 300000) (t0 + 300000) (t0 + 300000)
      ip ua 10000 rfl rfl rfl hc5 rfl hf5 hd5, h5]; decide
  · rw [validate_envelope_only (mkSession t0 ip ua) (t0 + 600000) (t0 + 600000) (t0 + 600000)
      ip ua 600 rfl rfl rfl hc10 rfl hf10 hd10, h10]; decide

/-- C4 witness: the five-minute / score-300 scenario at the fixture instant. -/
theorem claim_C4_witness :
    validateGameSession (mkSession T0 "192.168.1.1" desktopUA) (T0 + 300000) (T0 + 300000)
      "192.168.1.1" desktopUA (some 300) (T0 + 300000) = ⟨true, none⟩ :=
  (claim_C4 T0 "192.168.1.1" desktopUA).1

/-- C6: whenever the server-observed duration exceeds the 30-minute cap and the
earlier checks pass (numeric score, chronological order, no future timestamps),
the verdict is exactly "session duration is too long", regardless of the score;
and whenever the duration is at most the cap, that reason is never produced. -/
theorem claim_C6 :
    (∀ (st : ScoreEntry) (cEnd sEnd now : Int) (ip ua : String) (s : Int),
      st.gameStartTime ≤ sEnd →
      cEnd ≤ now + CLOCK_SKEW_TOLERANCE_MS →
      sEnd ≤ now + CLOCK_SKEW_TOLERANCE_MS →
      MAX_SESSION_DURATION_MS < sEnd - st.gameStartTime →
      validateGameSession st cEnd sEnd ip ua (some s) now =
        ⟨false, some "session duration is too long"⟩) ∧
    (∀ (st : ScoreEntry) (cEnd sEnd now : Int) (ip ua : String) (score : Option Int),
      sEnd - st.gameStartTime ≤ MAX_SESSION_DURATION_MS →
      (validateGameSession st cEnd sEnd ip ua score now).rejectionReason ≠
        some "session duration is too long") := by
  constructor
  · intro st cEnd sEnd now ip ua s hchron hfc hfs hdur
    simp only [validateGameSession]
    rw [if_neg (show ¬ (sEnd < st.gameStartTime) by omega)]
    rw [if_neg (show ¬ (now + CLOCK_SKEW_TOLERANCE_MS < cEnd ∨
      now + CLOCK_SKEW_TOLERANCE_MS < sEnd) by omega)]
    rw [if_pos hdur]
  · intro st cEnd sEnd now ip ua score hdur
    match score with
    | none => simp only [validateGameSession]; decide
    | some s =>
      simp only [validateGameSession]
      split_ifs with h1 h2 h3 h4 h5 h6 h7 h8
      · decide
      · decide
      · exact absurd h3 (by omega)
      · decide
      · decide
      · decide
      · decide
      · decide
      · decide

/-- C6 witness: the 35-minute test vector is rejected as too long. -/
theorem claim_C6_witness :
    validateGameSession (mkSession T0 "192.168.1.1" desktopUA) (T0 + 2100000) (T0 + 2100000)
      "192.168.1.1" desktopUA (some 1000) (T0 + 2100000) =
      ⟨false, some "session duration is too long"⟩ :=
  claim_C6.1 (mkSession T0 "192.168.1.1" desktopUA) (T0 + 2100000) (T0 + 2100000)
    (T0 + 2100000) "192.168.1.1" desktopUA 1000 (by decide) (by decide) (by decide) (by decide)

/-- C7 counterexample: at the desktop IP-change test vector the validator does
reject, but its stored reason is the literal "suspicious IP address change on
computer", not "suspicious IP change" as the claim states. -/
theorem claim_C7_counterexample :
    (validateGameSession (mkSession T0 "192.168.1.1" desktopUA) (T0 + 300000) (T0 + 300000)
      "192.168.1.2" desktopUA (some 300) (T0 + 300000)).isValid = false ∧
    (validateGameSession (mkSession T0 "192.168.1.1" desktopUA) (T0 + 300000) (T0 + 300000)
      "192.168.1.2" desktopUA (some 300) (T0 + 300000)).rejectionReason ≠
      some "suspicious IP change" := by decide

/-- C7 (amended): when the observed IP differs from the stored one, the user
agent is unchanged and every other check passes, a mobile/tablet stored user
agent makes the validator tolerate the change while a desktop one makes it
reject with the literal reason "suspicious IP address change on computer". -/
theorem claim_C7 (st : ScoreEntry) (cEnd sEnd now : Int) (ip ua : String) (s : Int)
    (hua : st.userAgent = some ua) (hip : st.ipAddress ≠ some ip)
    (hchron : st.gameStartTime ≤ sEnd)
    (hfc : cEnd ≤ now + CLOCK_SKEW_TOLERANCE_MS) (hfs : sEnd ≤ now + CLOCK_SKEW_TOLERANCE_MS)
    (hdur : sEnd - st.gameStartTime ≤ MAX_SESSION_DURATION_MS)
    (hnet : |cEnd - st.clientStartTime - (sEnd - st.gameStartTime)| ≤ NETWORK_DELAY_TOLERANCE_MS)
    (hlo : minScoreFor (sEnd - st.gameStartTime) ≤ s)
    (hhi : s ≤ maxScoreFor (sEnd - st.gameStartTime)) :
    (isMobileUserAgent ua = true →
      validateGameSession st cEnd sEnd ip ua (some s) now = ⟨true, none⟩) ∧
    (isMobileUserAgent ua = false →
      validateGameSession st cEnd sEnd ip ua (some s) now =
        ⟨false, some "suspicious IP address change on computer"⟩) := by
  constructor
  · intro hmob
    simp only [validateGameSession]
    rw [if_neg (show ¬ (sEnd < st.gameStartTime) by omega)]
    rw [if_neg (show ¬ (now + CLOCK_SKEW_TOLERANCE_MS < cEnd ∨
      now + CLOCK_SKEW_TOLERANCE_MS < sEnd) by omega)]
    rw [if_neg (show ¬ (MAX_SESSION_DURATION_MS < sEnd - st.gameStartTime) by omega)]
    rw [if_neg (show ¬ (NETWORK_DELAY_TOLERANCE_MS <
      |cEnd - st.clientStartTime - (sEnd - st.gameStartTime)|) by omega)]
    rw [if_neg (show ¬ (st.userAgent ≠ some ua) by simp [hua])]
    rw [if_neg (show ¬ (st.ipAddress ≠ some ip ∧
      ¬ isMobileUserAgent (st.userAgent.getD "") = true) by simp [hua, hmob])]
    rw [if_neg (show ¬ (s < minScoreFor (sEnd - st.gameStartTime)) by omega)]
    rw [if_neg (show ¬ (maxScoreFor (sEnd - st.gameStartTime) < s) by omega)]
  · intro hmob
    simp only [validateGameSession]
    rw [if_neg (show ¬ (sEnd < st.gameStartTime) by omega)]
    rw [if_neg (show ¬ (now + CLOCK_SKEW_TOLERANCE_MS < cEnd ∨
      now + CLOCK_SKEW_TOLERANCE_MS < sEnd) by omega)]
    rw [if_neg (show ¬ (MAX_SESSION_DURATION_MS < sEnd - st.gameStartTime) by omega)]
    rw [if_neg (show ¬ (NETWORK_DELAY_TOLERANCE_MS <
      |cEnd - st.clientStartTime - (sEnd - st.gameStartTime)|) by omega)]
    rw [if_neg (show ¬ (st.userAgent ≠ some ua) by simp [hua])]
    rw [if_pos (show st.ipAddress ≠ some ip ∧
      ¬ isMobileUserAgent (st.userAgent.getD "") = true by simp [hua, hip, hmob])]

/-- C7 witness: the mobile IP-change test vector is tolerated. -/
theorem claim_C7_witness :
    validateGameSession (mkSession T0 "192.168.1.1" mobileUA) (T0 + 300000) (T0 + 300000)
      "192.168.1.2" mobileUA (some 300) (T0 + 300000) = ⟨true, none⟩ :=
  (claim_C7 (mkSession T0 "192.168.1.1" mobileUA) (T0 + 300000) (T0 + 300000) (T0 + 300000)
    "192.168.1.2" mobileUA 300 rfl (by decide) (by decide) (by decide) (by decide)
    (by decide) (by decide) (by decide) (by decide)).1 (by decide)

/-- C8: the tier classifier maps a score to tier 0 iff it is at least 300, to
tier 1 iff it is in [100, 300), to tier 2 iff it is in [50, 100) and to tier 3
iff it is below 50 (the boundary sample points behave as documented), and it is
monotone non-increasing in the score. -/
theorem claim_C8 :
    (∀ s : Int,
      (getPriceTier s = 0 ↔ 300 ≤ s) ∧
      (getPriceTier s = 1 ↔ 100 ≤ s ∧ s < 300) ∧
      (getPriceTier s = 2 ↔ 50 ≤ s ∧ s < 100) ∧
      (getPriceTier s = 3 ↔ s < 50)) ∧
    (getPriceTier 300 = 0 ∧ getPriceTier 299 = 1 ∧ getPriceTier 100 = 1 ∧
      getPriceTier 99 = 2 ∧ getPriceTier 50 = 2 ∧ getPriceTier 49 = 3) ∧
    (∀ s t : Int, s ≤ t → getPriceTier t ≤ getPriceTier s) := by
  refine ⟨fun s => ?_, by decide, fun s t hst => ?_⟩
  · unfold getPriceTier
    split_ifs <;> refine ⟨?_, ?_, ?_, ?_⟩ <;> constructor <;> intro h <;>
      first
      | exact h.elim
      | omega
  · unfold getPriceTier
    split_ifs <;> omega

/-- C8 witness: monotonicity applied at the 49 / 300 pair. -/
theorem claim_C8_witness : getPriceTier 300 ≤ getPriceTier 49 :=
  claim_C8.2.2 49 300 (by decide)

/-- On the terminal path (verdict already stored) `validateExistingScore`
returns the stored verdict and reason with the tier of the raw score, writing
nothing. -/
theorem validateExistingScore_terminal (entry : ScoreEntry) (s : Int)
    (vr : ValidationResult) (b : RevalBehavior) (now : Int) (hb : b.getScoreThrows = false)
    (hs : entry.score = some s) (hvr : entry.validationResult = some vr) :
    validateExistingScore (some entry) b now =
      (⟨⟨true, vr, entry.rejectionReason, getPriceTier s⟩, false, 0⟩, some entry) := by
  simp only [validateExistingScore, hb, hs, hvr]
  rfl

/-- On the fresh path (score present, no verdict, successful calls)
`validateExistingScore` runs the validator on the stored fields, persists the
verdict, and reports the raw-score tier on `VALID` and tier 3 on `INVALID`. -/
theorem validateExistingScore_fresh (entry : ScoreEntry) (s : Int) (b : RevalBehavior)
    (now : Int) (hs : entry.score = some s) (hvr : entry.validationResult = none)
    (hb1 : b.getScoreThrows = false) (hb2 : b.saveThrows = none) :
    validateExistingScore (some entry) b now =
      (⟨⟨true,
          if (revalVerdict entry s now).isValid then .VALID else .INVALID,
          (revalVerdict entry s now).rejectionReason,
          if (revalVerdict entry s now).isValid then getPriceTier s else 3⟩, true, 1⟩,
       some { entry with
                validationResult :=
                  some (if (revalVerdict entry s now).isValid then .VALID else .INVALID)
                rejectionReason := (revalVerdict entry s now).rejectionReason
                lastUpdate := now }) := by
  simp only [validateExistingScore, revalVerdict, hs, hvr, hb1, hb2]
  rfl

/-- The validator either accepts with no reason or rejects with some reason. -/
theorem validateGameSession_shape (st : ScoreEntry) (cEnd sEnd : Int) (ip ua : String)
    (score : Option Int) (now : Int) :
    (validateGameSession st cEnd sEnd ip ua score now).isValid = true ∧
      (validateGameSession st cEnd sEnd ip ua score now).rejectionReason = none ∨
    (validateGameSession st cEnd sEnd ip ua score now).isValid = false ∧
      ((validateGameSession st cEnd sEnd ip ua score now).rejectionReason).isSome = true := by
  cases score with
  | none => simp [validateGameSession]
  | some s =>
    simp only [validateGameSession]
    split_ifs <;> simp

/-- C1 counterexample: with an existing session, every store call succeeding
and the validator returning an `INVALID` verdict (score 10 at five minutes,
"score too low"), `processGameEnd` returns `success = false` — not
`success = true` as the claim states. -/
theorem claim_C1_counterexample :
    (processGameEnd (some (mkSession T0 "192.168.1.1" desktopUA)) allOk (T0 + 300000)
      "192.168.1.1" desktopUA (some 10) (T0 + 300000)).result.success = false ∧
    (processGameEnd (some (mkSession T0 "192.168.1.1" desktopUA)) allOk (T0 + 300000)
      "192.168.1.1" desktopUA (some 10) (T0 + 300000)).result.rejectionReason =
      some "score too low" := by decide

/-- C1 (amended): `success` tracks the verdict, not mere pipeline completion —
whenever the session exists, the initial lookup and `getSession` succeed and
the anti-cheat verdict is `INVALID`, `processGameEnd` returns `success =
false` with the reason of the verdict and tier 3, attempting no store mutation
at all; under the same preconditions a `VALID` verdict whose two persistence
steps resolve truthily returns `{success=true, VALID, no reason, the tier of
the score}`; and in full generality `success = true` holds exactly when no
store call rejects, the update and save resolve truthily, the session exists
and the verdict is `VALID` — so `success = false` in every aborted-pipeline
case as well as on a rejected score. -/
theorem claim_C1 :
    (∀ (session : ScoreEntry) (b : EndBehavior) (clientEndTime : Int)
       (ipAddress userAgent : String) (score : Option Int) (now : Int),
      b.getScoreThrows = false → b.getSessionThrows = none →
      (validateGameSession session clientEndTime now ipAddress userAgent score now).isValid
        = false →
      processGameEnd (some session) b clientEndTime ipAddress userAgent score now =
        ⟨⟨false, .INVALID,
          (validateGameSession session clientEndTime now ipAddress userAgent
            score now).rejectionReason, 3⟩, true, 0⟩) ∧
    (∀ (session : ScoreEntry) (b : EndBehavior) (clientEndTime : Int)
       (ipAddress userAgent : String) (s : Int) (now : Int),
      b.getScoreThrows = false → b.getSessionThrows = none →
      b.updateOutcome = .ok → b.saveOutcome = .ok →
      (validateGameSession session clientEndTime now ipAddress userAgent (some s) now).isValid
        = true →
      processGameEnd (some session) b clientEndTime ipAddress userAgent (some s) now =
        ⟨⟨true, .VALID, none, getPriceTier s⟩, true, 2⟩) ∧
    (∀ (doc : Option ScoreEntry) (b : EndBehavior) (clientEndTime : Int)
       (ipAddress userAgent : String) (score : Option Int) (now : Int),
      (processGameEnd doc b clientEndTime ipAddress userAgent score now).result.success = true ↔
        b.getScoreThrows = false ∧ b.getSessionThrows = none ∧
        b.updateOutcome = .ok ∧ b.saveOutcome = .ok ∧
        ∃ session, doc = some session ∧
          (validateGameSession session clientEndTime now ipAddress userAgent score now).isValid
            = true) := by
  refine ⟨?_, ?_, ?_⟩
  · intro session b clientEndTime ipAddress userAgent score now hgs hsess hv
    simp only [processGameEnd, hgs, hsess, hv]
    rfl
  · intro session b clientEndTime ipAddress userAgent s now hgs hsess huo hso hv
    simp only [processGameEnd, hgs, hsess, huo, hso, hv]
    rfl
  · intro doc b clientEndTime ipAddress userAgent score now
    obtain ⟨gs, gss, uo, so⟩ := b
    cases gs
    · cases gss with
      | none =>
        cases doc with
        | none => simp [processGameEnd, failedRun]
        | some session =>
          by_cases hv :
            (validateGameSession session clientEndTime now ipAddress userAgent
              score now).isValid = true
          · cases uo <;> cases so <;> simp [processGameEnd, failedRun, hv]
          · simp [processGameEnd, failedRun, hv]
      | some e => simp [processGameEnd, failedRun]
    · simp [processGameEnd, failedRun]

/-- C1 witness: the amended statement at concrete inputs — the INVALID branch
at the counterexample vector and the VALID branch at the happy-path vector. -/
theorem claim_C1_witness :
    processGameEnd (some (mkSession T0 "192.168.1.1" desktopUA)) allOk (T0 + 300000)
      "192.168.1.1" desktopUA (some 10) (T0 + 300000) =
      ⟨⟨false, .INVALID,
        (validateGameSession (mkSession T0 "192.168.1.1" desktopUA) (T0 + 300000) (T0 + 300000)
          "192.168.1.1" desktopUA (some 10) (T0 + 300000)).rejectionReason, 3⟩, true, 0⟩ ∧
    processGameEnd (some (mkSession T0 "192.168.1.1" desktopUA)) allOk (T0 + 300000)
      "192.168.1.1" desktopUA (some 300) (T0 + 300000) =
      ⟨⟨true, .VALID, none, getPriceTier 300⟩, true, 2⟩ :=
  ⟨claim_C1.1 (mkSession T0 "192.168.1.1" desktopUA) allOk (T0 + 300000) "192.168.1.1"
      desktopUA (some 10) (T0 + 300000) rfl rfl (by decide),
   claim_C1.2.1 (mkSession T0 "192.168.1.1" desktopUA) allOk (T0 + 300000) "192.168.1.1"
      desktopUA 300 (T0 + 300000) rfl rfl rfl rfl (by decide)⟩

/-- C2 counterexample: on a stored document with score 150 already marked
`INVALID`, `validateExistingScore` reports price tier 1 (the tier of the raw
score), not tier 3 as the claim states. -/
theorem claim_C2_counterexample :
    (validateExistingScore (some storedInvalid150) revalOk T0).1.result.priceTier = 1 ∧
    (validateExistingScore (some storedInvalid150) revalOk T0).1.result.priceTier ≠ 3 := by
  decide

/-- C2 (amended): on a stored document whose verdict is already set
(`VALID` or `INVALID`), `validateExistingScore` returns the stored verdict and
stored reason with `priceTier = getPriceTier score` computed from the raw score
(so tier 3 only when the raw score is below 50), performs no write, and leaves
the store unchanged — whatever the save outcome would have been. -/
theorem claim_C2 (entry : ScoreEntry) (s : Int) (vr : ValidationResult)
    (b : RevalBehavior) (now : Int) (hb : b.getScoreThrows = false)
    (hs : entry.score = some s) (hvr : entry.validationResult = some vr) :
    validateExistingScore (some entry) b now =
      (⟨⟨true, vr, entry.rejectionReason, getPriceTier s⟩, false, 0⟩, some entry) := by
  simp only [validateExistingScore, hb, hs, hvr]
  rfl

/-- C2 witness: the amended statement at the stored-INVALID fixture. -/
theorem claim_C2_witness :
    validateExistingScore (some storedInvalid150) revalOk T0 =
      (⟨⟨true, .INVALID, some "Previous rejection reason", getPriceTier 150⟩, false, 0⟩,
       some storedInvalid150) :=
  claim_C2 storedInvalid150 150 .INVALID revalOk T0 rfl rfl rfl

/-- C3 counterexample: `updateSession` on a session whose verdict is already
set (`VALID`, terminal) succeeds and overwrites the stored score — it is
silently applied, not rejected and not left unchanged. -/
theorem claim_C3_counterexample :
    terminalSessionFx.validationResult = some .VALID ∧
    updateSession (some terminalSessionFx) terminalSessionFx.address 400 (T0 + 600000)
      (some (T0 + 600000)) (T0 + 600000) =
      .ok { terminalSessionFx with
              score := some 400
              gameEndTime := some (T0 + 600000)
              clientEndTime := some (T0 + 600000)
              lastUpdate := T0 + 600000 } ∧
    ({ terminalSessionFx with
         score := some 400
         gameEndTime := some (T0 + 600000)
         clientEndTime := some (T0 + 600000)
         lastUpdate := T0 + 600000 } : ScoreEntry) ≠ terminalSessionFx := by
  refine ⟨rfl, rfl, by decide⟩

/-- C3 (amended): `updateSession` matches by address alone — it applies the
`$set` of score, end times and `lastUpdate` to any existing session, including
one whose verdict is already set, and fails only when no document exists. -/
theorem claim_C3 :
    (∀ (session : ScoreEntry) (address : String) (score gameEndTime : Int)
       (clientEndTime : Option Int) (now : Int),
      updateSession (some session) address score gameEndTime clientEndTime now =
        .ok { session with
                score := some score
                gameEndTime := some gameEndTime
                clientEndTime := clientEndTime
                lastUpdate := now }) ∧
    (∀ (address : String) (score gameEndTime : Int) (clientEndTime : Option Int) (now : Int),
      updateSession none address score gameEndTime clientEndTime now =
        .error (.updateFailed address)) :=
  ⟨fun _ _ _ _ _ _ => rfl, fun _ _ _ _ _ => rfl⟩

/-- C5: `createSession` fails with the session-exists error exactly when the
stored document already has a score, regardless of any of its timestamps; a
scoreless document is overwritten in place (same address, score still absent,
verdict cleared, fresh start time); and with no document a fresh one is
inserted. -/
theorem claim_C5 :
    (∀ (existing : ScoreEntry) (address : String) (req : Option RequestInfo) (now : Int),
      existing.score.isSome →
      createSession (some existing) address req now = .error (.sessionExists address)) ∧
    (∀ (existing : ScoreEntry) (address : String) (req : Option RequestInfo) (now : Int),
      existing.score = none →
      createSession (some existing) address req now =
        .ok (now,
          { existing with
              gameStartTime := now
              clientStartTime := ((req.bind RequestInfo.clientTimestamp).getD 0)
              lastUpdate := now
              gameEndTime := none
              clientEndTime := none
              validationResult := none
              rejectionReason := none
              ipAddress := req.bind RequestInfo.ipAddress
              userAgent := req.bind RequestInfo.userAgent })) ∧
    (∀ (address : String) (req : Option RequestInfo) (now : Int),
      createSession none address req now = .ok (now, newSessionDoc address req now)) := by
  refine ⟨fun existing address req now h => ?_, fun existing address req now h => ?_,
    fun _ _ _ => rfl⟩
  · simp only [createSession, if_pos h]
  · simp only [createSession, h, Option.isSome_none, Bool.false_eq_true, if_false]

/-- C5 witness: the terminal branch at the terminal fixture and the overwrite
branch at the fresh fixture. -/
theorem claim_C5_witness :
    createSession (some terminalSessionFx) terminalSessionFx.address none (T0 + 900000) =
      .error (.sessionExists terminalSessionFx.address) :=
  claim_C5.1 terminalSessionFx terminalSessionFx.address none (T0 + 900000) (by decide)

/-- C9 counterexample: on a stored, not yet validated document whose score the
envelope rejects (200 points in 10 seconds), the first `validateExistingScore`
call and the immediately following one return different outputs (tier 3
against tier 1) — the operation is not output-idempotent. -/
theorem claim_C9_counterexample :
    (validateExistingScore
        (validateExistingScore (some unvalidated200) revalOk (T0 + 10000)).2
        revalOk (T0 + 10000)).1.result ≠
      (validateExistingScore (some unvalidated200) revalOk (T0 + 10000)).1.result := by
  decide

/-- C9 (amended): starting from a scored, unvalidated document with every
store call succeeding, only the first `validateExistingScore` call writes (the
second writes nothing and leaves the store unchanged), the two calls agree on
`success`, `validationResult` and `rejectionReason`, and their outputs are
fully identical whenever the computed verdict is `VALID` — but on an `INVALID`
verdict the first call reports tier 3 while the second reports the raw-score
tier. -/
theorem claim_C9 (entry : ScoreEntry) (s : Int) (b : RevalBehavior) (now now2 : Int)
    (hs : entry.score = some s) (hvr : entry.validationResult = none)
    (hb1 : b.getScoreThrows = false) (hb2 : b.saveThrows = none) :
    (validateExistingScore (some entry) b now).1.storeWrites = 1 ∧
    (validateExistingScore (validateExistingScore (some entry) b now).2 b now2).1.storeWrites
      = 0 ∧
    (validateExistingScore (validateExistingScore (some entry) b now).2 b now2).2 =
      (validateExistingScore (some entry) b now).2 ∧
    (validateExistingScore (validateExistingScore (some entry) b now).2 b
        now2).1.result.success =
      (validateExistingScore (some entry) b now).1.result.success ∧
    (validateExistingScore (validateExistingScore (some entry) b now).2 b
        now2).1.result.validationResult =
      (validateExistingScore (some entry) b now).1.result.validationResult ∧
    (validateExistingScore (validateExistingScore (some entry) b now).2 b
        now2).1.result.rejectionReason =
      (validateExistingScore (some entry) b now).1.result.rejectionReason ∧
    ((validateExistingScore (some entry) b now).1.result.validationResult = .VALID →
      (validateExistingScore (validateExistingScore (some entry) b now).2 b now2).1.result =
        (validateExistingScore (some entry) b now).1.result) := by
  have h1 := validateExistingScore_fresh entry s b now hs hvr hb1 hb2
  have h2 := validateExistingScore_terminal
    { entry with
        validationResult :=
          some (if (revalVerdict entry s now).isValid then .VALID else .INVALID)
        rejectionReason := (revalVerdict entry s now).rejectionReason
        lastUpdate := now }
    s (if (revalVerdict entry s now).isValid then .VALID else .INVALID) b now2 hb1 hs rfl
  rw [h1]
  simp only [h2]
  cases hv : (revalVerdict entry s now).isValid <;> simp [hv]

/-- C9 witness: the amended statement at the fixture the validator accepts
(300 points in five minutes): the second call performs no write. -/
theorem claim_C9_witness :
    (validateExistingScore
        (validateExistingScore (some unvalidated300) revalOk (T0 + 300000)).2
        revalOk (T0 + 300000)).1.storeWrites = 0 :=
  (claim_C9 unvalidated300 300 revalOk (T0 + 300000) (T0 + 300000) rfl rfl rfl rfl).2.1

/-- C10: both public score operations are total and fail closed, and every
internal exception — the initial score lookup, `getSession`, and the two later
persistence steps, whether it is an `Error` or a non-`Error` value — is caught
and converted into the structured result
`{success=false, INVALID, rejectionReason, tier 3}`: a rejected initial lookup
yields `"Failed to get score"` with the validator never invoked and no write
attempted; a rejected `getSession` yields the thrown message (or
`"Unknown error"` for a non-`Error` value) with the validator never invoked and
no write; a rejected `updateSession` or `saveSessionWithValidation` after a
`VALID` verdict, and a rejected verdict write in `validateExistingScore`, each
yield the thrown message in the same structured shape; and on every store
behavior whatsoever each operation returns either `success = true` or a
structured failure with `success = false`, `INVALID`, some rejection reason
and tier 3 — never an escaping exception. -/
theorem claim_C10 :
    (∀ (doc : Option ScoreEntry) (b : EndBehavior) (clientEndTime : Int)
       (ipAddress userAgent : String) (score : Option Int) (now : Int),
      b.getScoreThrows = true →
      processGameEnd doc b clientEndTime ipAddress userAgent score now =
        failedRun "Failed to get score" false 0) ∧
    (∀ (doc : Option ScoreEntry) (b : RevalBehavior) (now : Int),
      b.getScoreThrows = true →
      validateExistingScore doc b now = (failedRun "Failed to get score" false 0, doc)) ∧
    (∀ (doc : Option ScoreEntry) (b : EndBehavior) (clientEndTime : Int)
       (ipAddress userAgent : String) (score : Option Int) (now : Int) (e : ThrownValue),
      b.getScoreThrows = false → b.getSessionThrows = some e →
      processGameEnd doc b clientEndTime ipAddress userAgent score now =
        failedRun (thrownMessage e) false 0) ∧
    (∀ (session : ScoreEntry) (b : EndBehavior) (clientEndTime : Int)
       (ipAddress userAgent : String) (score : Option Int) (now : Int) (e : ThrownValue),
      b.getScoreThrows = false → b.getSessionThrows = none →
      (validateGameSession session clientEndTime now ipAddress userAgent score now).isValid
        = true →
      b.updateOutcome = .throws e →
      processGameEnd (some session) b clientEndTime ipAddress userAgent score now =
        failedRun (thrownMessage e) true 1) ∧
    (∀ (session : ScoreEntry) (b : EndBehavior) (clientEndTime : Int)
       (ipAddress userAgent : String) (score : Option Int) (now : Int) (e : ThrownValue),
      b.getScoreThrows = false → b.getSessionThrows = none →
      (validateGameSession session clientEndTime now ipAddress userAgent score now).isValid
        = true →
      b.updateOutcome = .ok → b.saveOutcome = .throws e →
      processGameEnd (some session) b clientEndTime ipAddress userAgent score now =
        failedRun (thrownMessage e) true 2) ∧
    (∀ (entry : ScoreEntry) (s : Int) (b : RevalBehavior) (now : Int) (e : ThrownValue),
      entry.score = some s → entry.validationResult = none →
      b.getScoreThrows = false → b.saveThrows = some e →
      validateExistingScore (some entry) b now =
        (failedRun (thrownMessage e) true 1, some entry)) ∧
    (∀ (doc : Option ScoreEntry) (b : EndBehavior) (clientEndTime : Int)
       (ipAddress userAgent : String) (score : Option Int) (now : Int),
      (processGameEnd doc b clientEndTime ipAddress userAgent score now).result.success = true ∨
      ((processGameEnd doc b clientEndTime ipAddress userAgent score now).result.success = false ∧
        (processGameEnd doc b clientEndTime ipAddress userAgent score now).result.validationResult
          = .INVALID ∧
        (processGameEnd doc b clientEndTime ipAddress userAgent score now).result.priceTier = 3 ∧
        ((processGameEnd doc b clientEndTime ipAddress userAgent
            score now).result.rejectionReason).isSome = true)) ∧
    (∀ (doc : Option ScoreEntry) (b : RevalBehavior) (now : Int),
      (validateExistingScore doc b now).1.result.success = true ∨
      ((validateExistingScore doc b now).1.result.success = false ∧
        (validateExistingScore doc b now).1.result.validationResult = .INVALID ∧
        (validateExistingScore doc b now).1.result.priceTier = 3 ∧
        ((validateExistingScore doc b now).1.result.rejectionReason).isSome = true)) := by
  refine ⟨?_, ?_, ?_, ?_, ?_, ?_, ?_, ?_⟩
  · intro doc b clientEndTime ipAddress userAgent score now h
    simp only [processGameEnd, h]
    rfl
  · intro doc b now h
    simp only [validateExistingScore, h]
    rfl
  · intro doc b clientEndTime ipAddress userAgent score now e hgs hss
    simp only [processGameEnd, hgs, hss]
    rfl
  · intro session b clientEndTime ipAddress userAgent score now e hgs hss hv huo
    simp only [processGameEnd, hgs, hss, hv, huo]
    rfl
  · intro session b clientEndTime ipAddress userAgent score now e hgs hss hv huo hso
    simp only [processGameEnd, hgs, hss, hv, huo, hso]
    rfl
  · intro entry s b now e hs hvr hgs hsv
    simp only [validateExistingScore, hs, hvr, hgs, hsv]
    rfl
  · intro doc b clientEndTime ipAddress userAgent score now
    obtain ⟨gs, gss, uo, so⟩ := b
    cases gs
    · cases gss
      · cases doc
        · right; exact ⟨rfl, rfl, rfl, rfl⟩
        · rename_i session
          by_cases hv :
            (validateGameSession session clientEndTime now ipAddress userAgent score now).isValid
              = true
          · cases uo <;> cases so <;>
              simp [processGameEnd, failedRun, hv]
          · rcases validateGameSession_shape session clientEndTime now ipAddress userAgent
              score now with ⟨h1, _⟩ | ⟨h1, h2⟩
            · exact absurd h1 hv
            · right
              simp [processGameEnd, failedRun, h1, h2]
      · right; exact ⟨rfl, rfl, rfl, rfl⟩
    · right; exact ⟨rfl, rfl, rfl, rfl⟩
  · intro doc b now
    obtain ⟨gs, ss⟩ := b
    cases gs
    · cases doc
      · right; exact ⟨rfl, rfl, rfl, rfl⟩
      · rename_i entry
        rcases hsc : entry.score with _ | s
        · right
          simp [validateExistingScore, failedRun, hsc]
        · rcases hvr : entry.validationResult with _ | vr
          · cases ss
            · left
              simp [validateExistingScore, hsc, hvr]
            · right
              simp [validateExistingScore, failedRun, hsc, hvr]
          · left
            simp [validateExistingScore, hsc, hvr]
    · right; exact ⟨rfl, rfl, rfl, rfl⟩

/-- C10 witness: a rejecting initial lookup is converted to the structured
failure, and a non-`Error` value thrown by `updateSession` after a `VALID`
verdict is converted to the `"Unknown error"` structured failure. -/
theorem claim_C10_witness :
    processGameEnd none badLookup 0 "ip" "ua" none 0 =
      failedRun "Failed to get score" false 0 ∧
    processGameEnd (some (mkSession T0 "192.168.1.1" desktopUA)) updateThrowsNonError
      (T0 + 300000) "192.168.1.1" desktopUA (some 300) (T0 + 300000) =
      failedRun "Unknown error" true 1 :=
  ⟨claim_C10.1 none badLookup 0 "ip" "ua" none 0 rfl,
   claim_C10.2.2.2.1 (mkSession T0 "192.168.1.1" desktopUA) updateThrowsNonError
     (T0 + 300000) "192.168.1.1" desktopUA (some 300) (T0 + 300000) ThrownValue.nonError
     rfl rfl (by decide) rfl⟩

end Wizzyverse
